import Mathlib

/-!
Shallow embedding of `cmd/soroban-rpc/internal/methods/simulate_transaction.go`
(the closure built by `NewSimulateTransactionHandler`, and `getBucketListSize`)
together with the fragments of the `stellar/go` XDR data model that the
handler touches.

Conventions used throughout:

* A nil-able Go pointer becomes an `Option`; dereferencing a nil pointer is a
  Go runtime panic, modelled by propagating `none`, so every function that
  can panic returns an `Option`.
* A Go `(value, error)` pair becomes `value × Option String`, where the
  `String` is the text of `err.Error()`; a nil error is `none`.
* No arithmetic is performed on the machine integers involved, so `uint32`
  and `uint64` become `Nat` while `int32` and `int64` become `Int`.
* The external collaborators of the handler (`db.LedgerEntryReader`,
  `db.LedgerReader` and the `PreflightGetter`) are modelled as a record of
  deterministic functions giving the results they return during one
  simulation; the context argument and the read transaction handle, which
  the handler merely threads through, are elided.
-/

namespace SorobanRPC

/-- The handler never inspects the structure of an `xdr.LedgerKey` (a large
XDR union), so ledger keys are kept opaque. -/
abbrev LedgerKey := Nat

/-- `xdr.LedgerFootprint`: the read-only and read-write sets of ledger keys. -/
structure LedgerFootprint where
  ReadOnly : List LedgerKey
  ReadWrite : List LedgerKey
deriving DecidableEq

/-- The Go zero value of `xdr.LedgerFootprint` used at line 71 of the source:
both slices are nil, i.e. empty. -/
def emptyFootprint : LedgerFootprint :=
  { ReadOnly := [], ReadWrite := [] }

/-- The handler never inspects the structure of an `xdr.AccountId`, so
account ids are kept opaque. -/
abbrev AccountId := Nat

/-- `xdr.MuxedAccount`, reduced to the single piece of data the handler
extracts from it via `ToAccountId`. -/
structure MuxedAccount where
  accountId : AccountId
deriving DecidableEq

/-- `xdr.MuxedAccount.ToAccountId`. -/
def MuxedAccount.ToAccountId (m : MuxedAccount) : AccountId :=
  m.accountId

/-- `xdr.OperationType`. The three discriminants the switch at lines 72-85
names get their own constructors; every other member of the Go enum is
represented as `OperationTypeOther s`, where `s` is the name that its
generated `String()` method returns (e.g. `OperationTypePayment`). -/
inductive OperationType where
  | OperationTypeInvokeHostFunction
  | OperationTypeBumpFootprintExpiration
  | OperationTypeRestoreFootprint
  | OperationTypeOther (name : String)
deriving DecidableEq

/-- The generated `String()` method of `xdr.OperationType`, which returns the
name of the enum member. -/
def OperationType.str : OperationType → String
  | OperationType.OperationTypeInvokeHostFunction => "OperationTypeInvokeHostFunction"
  | OperationType.OperationTypeBumpFootprintExpiration => "OperationTypeBumpFootprintExpiration"
  | OperationType.OperationTypeRestoreFootprint => "OperationTypeRestoreFootprint"
  | OperationType.OperationTypeOther name => name

/-- `xdr.OperationBody`, reduced to its discriminant: the handler reads only
`op.Body.Type` and otherwise passes the body opaquely to `GetPreflight`. -/
structure OperationBody where
  type : OperationType
deriving DecidableEq

/-- `xdr.Operation`: an optional per-operation source account and a body. -/
structure Operation where
  SourceAccount : Option MuxedAccount
  Body : OperationBody
deriving DecidableEq

/-- `xdr.SorobanResources`, reduced to the footprint, the only field the
handler reads. -/
structure SorobanResources where
  Footprint : LedgerFootprint
deriving DecidableEq

/-- `xdr.SorobanTransactionData`, reduced to its resources. -/
structure SorobanTransactionData where
  Resources : SorobanResources
deriving DecidableEq

/-- `xdr.TransactionExt`: the XDR union versioning a transaction's extension.
`SorobanData` is a nil-able pointer, set exactly when `V = 1` in any value
produced by the XDR decoder. -/
structure TransactionExt where
  V : Int
  SorobanData : Option SorobanTransactionData
deriving DecidableEq

/-- `xdr.Transaction` (the v1 transaction), reduced to the fields the handler
reads: source account, operations and the extension. -/
structure Transaction where
  SourceAccount : MuxedAccount
  Operations : List Operation
  Ext : TransactionExt
deriving DecidableEq

/-- `xdr.TransactionV1Envelope`, reduced to its transaction. -/
structure TransactionV1Envelope where
  Tx : Transaction
deriving DecidableEq

/-- `xdr.TransactionV0`, reduced to the fields the envelope accessors read.
The legacy ed25519 source account is kept in its `ToMuxedAccount` form. -/
structure TransactionV0 where
  SourceAccount : MuxedAccount
  Operations : List Operation
deriving DecidableEq

/-- `xdr.TransactionV0Envelope`. -/
structure TransactionV0Envelope where
  Tx : TransactionV0
deriving DecidableEq

/-- `xdr.FeeBumpTransaction`, reduced to its inner transaction. `InnerTx` is
the single-armed XDR union `FeeBumpTransactionInnerTx`, whose v1 arm is a
nil-able pointer. -/
structure FeeBumpTransaction where
  InnerTx : Option TransactionV1Envelope
deriving DecidableEq

/-- `xdr.FeeBumpTransactionEnvelope`. -/
structure FeeBumpTransactionEnvelope where
  Tx : FeeBumpTransaction
deriving DecidableEq

/-- The members of `xdr.EnvelopeType` on which the `xdr.TransactionEnvelope`
union is switched; the XDR decoder rejects every other discriminant for a
transaction envelope. -/
inductive EnvelopeType where
  | EnvelopeTypeTx
  | EnvelopeTypeTxV0
  | EnvelopeTypeTxFeeBump
deriving DecidableEq

/-- `xdr.TransactionEnvelope`: in the Go representation the union is a struct
holding the discriminant and one nil-able pointer per arm; the decoder sets
exactly the arm matching the discriminant. -/
structure TransactionEnvelope where
  type : EnvelopeType
  V0 : Option TransactionV0Envelope
  V1 : Option TransactionV1Envelope
  FeeBump : Option FeeBumpTransactionEnvelope
deriving DecidableEq

/-- The `Operations()` accessor of `xdr.TransactionEnvelope` in `stellar/go`:
returns the operation list of the arm selected by the discriminant; `none`
models the nil-pointer panic when that arm is absent. -/
def TransactionEnvelope.Operations (e : TransactionEnvelope) : Option (List Operation) :=
  match e.type with
  | EnvelopeType.EnvelopeTypeTxFeeBump =>
      e.FeeBump.bind (fun fb => fb.Tx.InnerTx.map (fun v1e => v1e.Tx.Operations))
  | EnvelopeType.EnvelopeTypeTx =>
      e.V1.map (fun v1e => v1e.Tx.Operations)
  | EnvelopeType.EnvelopeTypeTxV0 =>
      e.V0.map (fun v0e => v0e.Tx.Operations)

/-- The `SourceAccount()` accessor of `xdr.TransactionEnvelope` in
`stellar/go`: the (inner) transaction's source account of the arm selected by
the discriminant; `none` models the nil-pointer panic. -/
def TransactionEnvelope.SourceAccount (e : TransactionEnvelope) : Option MuxedAccount :=
  match e.type with
  | EnvelopeType.EnvelopeTypeTxFeeBump =>
      e.FeeBump.bind (fun fb => fb.Tx.InnerTx.map (fun v1e => v1e.Tx.SourceAccount))
  | EnvelopeType.EnvelopeTypeTx =>
      e.V1.map (fun v1e => v1e.Tx.SourceAccount)
  | EnvelopeType.EnvelopeTypeTxV0 =>
      e.V0.map (fun v0e => v0e.Tx.SourceAccount)

/-- `xdr.LedgerCloseMetaV2`, reduced to the field read at line 148. -/
structure LedgerCloseMetaV2 where
  TotalByteSizeOfBucketList : Nat
deriving DecidableEq

/-- `xdr.LedgerCloseMeta`: discriminant plus the nil-able v2 arm (the only
arm `getBucketListSize` dereferences). -/
structure LedgerCloseMeta where
  V : Int
  V2 : Option LedgerCloseMetaV2
deriving DecidableEq

/-- `preflight.Preflight`, the result record of the VM invocation, with the
fields the handler copies into the response. -/
structure Preflight where
  Events : List String
  TransactionData : String
  MinFee : Int
  Result : String
  Auth : List String
  CPUInstructions : Nat
  MemoryBytes : Nat
deriving DecidableEq

/-- The results the external collaborators return during one simulation:
`ledgerEntryReader.NewCachedTx` (its error only; the returned read
transaction is just threaded through), `readTx.GetLatestLedgerSequence`,
`ledgerReader.GetLedger` and `getter.GetPreflight`.  `GetPreflight` is keyed
by the arguments the handler passes it: bucket-list size, source account,
operation body and footprint. -/
structure Collaborators where
  newCachedTxErr : Option String
  getLatestLedgerSequence : Nat × Option String
  getLedger : Nat → LedgerCloseMeta × Bool × Option String
  getPreflight : Nat → AccountId → OperationBody → LedgerFootprint → Preflight × Option String

/-- JSON request type `SimulateTransactionRequest`. -/
structure SimulateTransactionRequest where
  Transaction : String
deriving DecidableEq

/-- `SimulateTransactionCost`. -/
structure SimulateTransactionCost where
  CPUInstructions : Nat
  MemoryBytes : Nat
deriving DecidableEq

/-- `SimulateHostFunctionResult`. -/
structure SimulateHostFunctionResult where
  Auth : List String
  XDR : String
deriving DecidableEq

/-- `SimulateTransactionResponse`. -/
structure SimulateTransactionResponse where
  Error : String
  TransactionData : String
  Events : List String
  MinResourceFee : Int
  Results : List SimulateHostFunctionResult
  Cost : SimulateTransactionCost
  LatestLedger : Int
deriving DecidableEq

/-- The Go zero value of `SimulateTransactionResponse`: every composite
literal in the handler starts from this and sets some fields. -/
def emptyResponse : SimulateTransactionResponse :=
  { Error := ""
  , TransactionData := ""
  , Events := []
  , MinResourceFee := 0
  , Results := []
  , Cost := { CPUInstructions := 0, MemoryBytes := 0 }
  , LatestLedger := 0 }

/-- A response literal that sets only the `Error` field, as in the error
returns of the handler. -/
def errorResponse (msg : String) : SimulateTransactionResponse :=
  { emptyResponse with Error := msg }

/-- `getBucketListSize` (lines 136-149 of the source): error check, then the
`ok` check, then the close-meta version check, then the bucket-list size.
The outer `Option` models the nil-pointer panic were `V2` absent with
`V = 2`. -/
def getBucketListSize (getLedger : Nat → LedgerCloseMeta × Bool × Option String)
    (latestLedger : Nat) : Option (Except String Nat) :=
  match getLedger latestLedger with
  | (_, _, some e) => some (Except.error e)
  | (_, false, none) =>
      some (Except.error ("missing meta for latest ledger (" ++ toString latestLedger ++ ")"))
  | (closeMeta, true, none) =>
      if closeMeta.V ≠ 2 then
        some (Except.error ("latest ledger (" ++ toString latestLedger ++
          ") meta has unexpected verion (" ++ toString closeMeta.V ++ ")"))
      else
        match closeMeta.V2 with
        | none => none
        | some v2 => some (Except.ok v2.TotalByteSizeOfBucketList)

/-- Lines 87-132 of the handler body: open the cached read transaction, get
the latest ledger sequence, get the bucket-list size, invoke the preflight
getter, and assemble the response. -/
def runSimulation (collab : Collaborators) (sourceAccount : AccountId)
    (opBody : OperationBody) (footprint : LedgerFootprint) :
    Option SimulateTransactionResponse :=
  match collab.newCachedTxErr with
  | some _ => some (errorResponse ("Cannot create read transaction"))
  | none =>
    match collab.getLatestLedgerSequence with
    | (_, some e) => some (errorResponse e)
    | (latestLedger, none) =>
      match getBucketListSize collab.getLedger latestLedger with
      | none => none
      | some (Except.error e) => some (errorResponse e)
      | some (Except.ok bucketListSize) =>
        match collab.getPreflight bucketListSize sourceAccount opBody footprint with
        | (_, some e) =>
            some { emptyResponse with Error := e, LatestLedger := Int.ofNat latestLedger }
        | (result, none) =>
            some { Error := ""
                 , TransactionData := result.TransactionData
                 , Events := result.Events
                 , MinResourceFee := result.MinFee
                 , Results := [{ Auth := result.Auth, XDR := result.Result }]
                 , Cost := { CPUInstructions := result.CPUInstructions
                           , MemoryBytes := result.MemoryBytes }
                 , LatestLedger := Int.ofNat latestLedger }

/-- Lines 64-69: the operation-level source account if set, else the
envelope-level one; `none` models the panic inside `SourceAccount()`. -/
def resolvedSource (e : TransactionEnvelope) (op : Operation) : Option AccountId :=
  match op.SourceAccount with
  | some opSourceAccount => some opSourceAccount.ToAccountId
  | none => (TransactionEnvelope.SourceAccount e).map MuxedAccount.ToAccountId

/-- Lines 74-80, the `BumpFootprintExpiration` / `RestoreFootprint` arm of
the switch.  The guard is the short-circuit conjunction
`txEnvelope.Type != EnvelopeTypeTx && txEnvelope.V1.Tx.Ext.V != 1` exactly as
written in the source: when the discriminant is `EnvelopeTypeTx` the second
conjunct is not evaluated; otherwise evaluating it dereferences `V1` (panic
when nil, modelled by `none`).  When the guard is false the footprint is read
through `txEnvelope.V1.Tx.Ext.SorobanData`, again with nil dereferences
modelled by `none`. -/
def bumpRestorePath (collab : Collaborators) (txEnvelope : TransactionEnvelope)
    (opBody : OperationBody) (sourceAccount : AccountId) :
    Option SimulateTransactionResponse :=
  match (if txEnvelope.type = EnvelopeType.EnvelopeTypeTx then some false
         else txEnvelope.V1.map (fun v1e => v1e.Tx.Ext.V != 1)) with
  | none => none
  | some true =>
      some (errorResponse ("To perform a SimulateTransaction for BumpFootprintExpiration or RestoreFootprint operations, SorobanTransactionData must be provided"))
  | some false =>
      match txEnvelope.V1 with
      | none => none
      | some v1e =>
        match v1e.Tx.Ext.SorobanData with
        | none => none
        | some sorobanData =>
            runSimulation collab sourceAccount opBody sorobanData.Resources.Footprint

/-- The closure returned by `NewSimulateTransactionHandler` (lines 48-133).
`decode` stands for `xdr.SafeUnmarshalBase64`, the deterministic XDR decoder
applied to `request.Transaction` (`none` = decoding error). -/
def simulateTransaction (decode : String → Option TransactionEnvelope)
    (collab : Collaborators) (request : SimulateTransactionRequest) :
    Option SimulateTransactionResponse :=
  match decode request.Transaction with
  | none => some (errorResponse ("Could not unmarshal transaction"))
  | some txEnvelope =>
    match TransactionEnvelope.Operations txEnvelope with
    | none => none
    | some ops =>
      if ops.length ≠ 1 then
        some (errorResponse ("Transaction contains more than one operation"))
      else
        match ops with
        | [] => none
        | op :: _ =>
          match resolvedSource txEnvelope op with
          | none => none
          | some sourceAccount =>
            match op.Body.type with
            | OperationType.OperationTypeInvokeHostFunction =>
                runSimulation collab sourceAccount op.Body emptyFootprint
            | OperationType.OperationTypeBumpFootprintExpiration =>
                bumpRestorePath collab txEnvelope op.Body sourceAccount
            | OperationType.OperationTypeRestoreFootprint =>
                bumpRestorePath collab txEnvelope op.Body sourceAccount
            | OperationType.OperationTypeOther _ =>
                some (errorResponse ("Transaction contains unsupported operation type: " ++ OperationType.str op.Body.type))

/-! Concrete fixtures used by the witnesses and counterexamples below. -/

/-- A muxed account resolving to account id 7. -/
def accA : MuxedAccount := { accountId := 7 }

/-- An `InvokeHostFunction` operation body. -/
def invokeBody : OperationBody := { type := OperationType.OperationTypeInvokeHostFunction }

/-- An `InvokeHostFunction` operation with an operation-level source. -/
def invokeOp : Operation := { SourceAccount := some accA, Body := invokeBody }

/-- A v1 transaction holding one `InvokeHostFunction` operation and no
Soroban extension. -/
def txInvoke : Transaction :=
  { SourceAccount := { accountId := 5 }
  , Operations := [invokeOp]
  , Ext := { V := 0, SorobanData := none } }

/-- An `EnvelopeTypeTx` envelope around `txInvoke`. -/
def envInvoke : TransactionEnvelope :=
  { type := EnvelopeType.EnvelopeTypeTx
  , V0 := none
  , V1 := some { Tx := txInvoke }
  , FeeBump := none }

/-- A version-2 close meta with bucket-list size 4096. -/
def metaOK : LedgerCloseMeta := { V := 2, V2 := some { TotalByteSizeOfBucketList := 4096 } }

/-- A preflight result with a non-empty event list. -/
def pfOK : Preflight :=
  { Events := ["EV1"]
  , TransactionData := "TDATA"
  , MinFee := 42
  , Result := "RES"
  , Auth := ["AU"]
  , CPUInstructions := 1000
  , MemoryBytes := 2000 }

/-- Collaborators for a fully successful simulation at latest ledger 99. -/
def collabOK : Collaborators :=
  { newCachedTxErr := none
  , getLatestLedgerSequence := (99, none)
  , getLedger := fun _ => (metaOK, true, none)
  , getPreflight := fun _ _ _ _ => (pfOK, none) }

/-- Collaborators whose preflight invocation fails after having produced the
events recorded in `pfOK`. -/
def collabPfErr : Collaborators :=
  { newCachedTxErr := none
  , getLatestLedgerSequence := (99, none)
  , getLedger := fun _ => (metaOK, true, none)
  , getPreflight := fun _ _ _ _ => (pfOK, some ("simulation failure")) }

/-- A `BumpFootprintExpiration` operation body. -/
def bumpBody : OperationBody := { type := OperationType.OperationTypeBumpFootprintExpiration }

/-- A `BumpFootprintExpiration` operation with an operation-level source. -/
def bumpOp : Operation := { SourceAccount := some accA, Body := bumpBody }

/-- An `EnvelopeTypeTx` envelope whose single operation is
`BumpFootprintExpiration` and whose transaction extension is v0, i.e. no
inline `SorobanData` is present. -/
def envBumpNoData : TransactionEnvelope :=
  { type := EnvelopeType.EnvelopeTypeTx
  , V0 := none
  , V1 := some { Tx := { SourceAccount := { accountId := 5 }
                       , Operations := [bumpOp]
                       , Ext := { V := 0, SorobanData := none } } }
  , FeeBump := none }

/-- C1: for an `EnvelopeTypeTx` envelope with a single
`BumpFootprintExpiration` operation and no ext-v1 resource data, the claim
demands the missing-resource-data error.  The source's guard
`txEnvelope.Type != EnvelopeTypeTx && txEnvelope.V1.Tx.Ext.V != 1` is false
here (its first conjunct fails), so the handler skips the error and
dereferences the nil `SorobanData` pointer instead: the simulation panics
(`none`) and in particular does not return the missing-resource-data
error. -/
theorem c1_missing_resource_data_not_rejected :
    simulateTransaction (fun _ => some envBumpNoData) collabOK { Transaction := "req" } = none ∧
    simulateTransaction (fun _ => some envBumpNoData) collabOK { Transaction := "req" } ≠
      some (errorResponse ("To perform a SimulateTransaction for BumpFootprintExpiration or RestoreFootprint operations, SorobanTransactionData must be provided")) := by
  refine ⟨rfl, ?_⟩
  decide

/-- C2, counterexample: a concrete simulation whose preflight invocation
fails after the VM produced the diagnostic event list `["EV1"]`; the response
carries the error message and the latest ledger but an empty `Events` field,
so the partial diagnostic events are not surfaced, contrary to the claim. -/
theorem c2_counterexample :
    simulateTransaction (fun _ => some envInvoke) collabPfErr { Transaction := "req" } =
      some { emptyResponse with Error := "simulation failure", LatestLedger := 99 } ∧
    (collabPfErr.getPreflight 4096 7 invokeBody emptyFootprint).1.Events = ["EV1"] ∧
    SimulateTransactionResponse.Events
      { emptyResponse with Error := "simulation failure", LatestLedger := 99 } = [] := by
  refine ⟨rfl, rfl, rfl⟩

/-- C2, amended: whenever the preflight invocation fails, the response
carries exactly the error message and `latestLedger` set to the pinned
snapshot sequence; the partial diagnostic events are never included (the
`Events` field stays empty even when the VM produced events before the
failure). -/
theorem c2_preflight_error_response (collab : Collaborators) (src : AccountId)
    (body : OperationBody) (fp : LedgerFootprint) (L B : Nat) (pf : Preflight) (e : String)
    (htx : collab.newCachedTxErr = none)
    (hseq : collab.getLatestLedgerSequence = (L, none))
    (hbls : getBucketListSize collab.getLedger L = some (Except.ok B))
    (hpf : collab.getPreflight B src body fp = (pf, some e)) :
    runSimulation collab src body fp =
      some { emptyResponse with Error := e, LatestLedger := Int.ofNat L } := by
  simp only [runSimulation, htx, hseq, hbls, hpf]

/-- C2, witness: the amended theorem applied to the concrete failing
collaborators. -/
theorem c2_preflight_error_response_witness :
    runSimulation collabPfErr 7 invokeBody emptyFootprint =
      some { emptyResponse with Error := "simulation failure", LatestLedger := Int.ofNat 99 } :=
  c2_preflight_error_response collabPfErr 7 invokeBody emptyFootprint 99 4096 pfOK
    "simulation failure" rfl rfl rfl rfl

/-- A version-1 close meta (no v2 arm). -/
def metaV1 : LedgerCloseMeta := { V := 1, V2 := none }

/-- Collaborators whose latest-ledger close meta has version 1. -/
def collabMetaV1 : Collaborators :=
  { newCachedTxErr := none
  , getLatestLedgerSequence := (7, none)
  , getLedger := fun _ => (metaV1, true, none)
  , getPreflight := fun _ _ _ _ => (pfOK, none) }

/-- An `EnvelopeTypeTx` envelope containing two operations. -/
def envTwoOps : TransactionEnvelope :=
  { type := EnvelopeType.EnvelopeTypeTx
  , V0 := none
  , V1 := some { Tx := { SourceAccount := { accountId := 5 }
                       , Operations := [invokeOp, invokeOp]
                       , Ext := { V := 0, SorobanData := none } } }
  , FeeBump := none }

/-- C3: when the close meta of the latest ledger is present but its version
is not 2, the simulation fails with the error naming the unexpected version,
and the result is unchanged under any replacement of the preflight getter,
i.e. `GetPreflight` is never consulted; when the version is 2 the bucket-list
size returned is the close meta's `TotalByteSizeOfBucketList`. -/
theorem c3_close_meta_version (collab : Collaborators) (src : AccountId)
    (body : OperationBody) (fp : LedgerFootprint) (L : Nat) (meta : LedgerCloseMeta)
    (htx : collab.newCachedTxErr = none)
    (hseq : collab.getLatestLedgerSequence = (L, none))
    (hml : collab.getLedger L = (meta, true, none)) :
    (¬ meta.V = 2 →
      runSimulation collab src body fp =
        some (errorResponse ("latest ledger (" ++ toString L ++
          ") meta has unexpected verion (" ++ toString meta.V ++ ")")) ∧
      ∀ gp, runSimulation { collab with getPreflight := gp } src body fp =
        runSimulation collab src body fp) ∧
    (∀ m2, meta.V = 2 → meta.V2 = some m2 →
      getBucketListSize collab.getLedger L = some (Except.ok m2.TotalByteSizeOfBucketList)) := by
  constructor
  · intro hv
    have key : ∀ c : Collaborators, c.newCachedTxErr = none →
        c.getLatestLedgerSequence = (L, none) → c.getLedger L = (meta, true, none) →
        runSimulation c src body fp =
          some (errorResponse ("latest ledger (" ++ toString L ++
            ") meta has unexpected verion (" ++ toString meta.V ++ ")")) := by
      intro c h1 h2 h3
      simp only [runSimulation, getBucketListSize, h1, h2, h3]
      rw [if_pos hv]
    refine ⟨key collab htx hseq hml, fun gp => ?_⟩
    rw [key { collab with getPreflight := gp } htx hseq hml, key collab htx hseq hml]
  · intro m2 hv hm2
    have hcond : ¬ (meta.V ≠ 2) := by simp [hv]
    simp only [getBucketListSize, hml]
    rw [if_neg hcond]
    simp only [hm2]

/-- C3, witness: the theorem applied to the concrete version-1 close meta. -/
theorem c3_close_meta_version_witness :
    runSimulation collabMetaV1 7 invokeBody emptyFootprint =
      some (errorResponse ("latest ledger (" ++ toString (7 : Nat) ++
        ") meta has unexpected verion (" ++ toString metaV1.V ++ ")")) :=
  ((c3_close_meta_version collabMetaV1 7 invokeBody emptyFootprint 7 metaV1 rfl rfl rfl).1
    (by decide)).1

/-- C6: whenever the envelope decodes but its operation list does not have
exactly one element, the handler returns the error
`Transaction contains more than one operation` with no results, whatever the
operations are — in particular before any operation-type check. -/
theorem c6_operation_count (decode : String → Option TransactionEnvelope)
    (collab : Collaborators) (request : SimulateTransactionRequest)
    (env : TransactionEnvelope) (ops : List Operation)
    (hdec : decode request.Transaction = some env)
    (hops : TransactionEnvelope.Operations env = some ops)
    (hlen : ops.length ≠ 1) :
    simulateTransaction decode collab request =
      some (errorResponse ("Transaction contains more than one operation")) ∧
    (errorResponse ("Transaction contains more than one operation")).Results = [] := by
  refine ⟨?_, rfl⟩
  simp only [simulateTransaction, hdec, hops]
  rw [if_pos hlen]

/-- C6, witness: the theorem applied to a concrete two-operation envelope. -/
theorem c6_operation_count_witness :
    simulateTransaction (fun _ => some envTwoOps) collabOK { Transaction := "req" } =
      some (errorResponse ("Transaction contains more than one operation")) :=
  (c6_operation_count (fun _ => some envTwoOps) collabOK { Transaction := "req" }
    envTwoOps [invokeOp, invokeOp] rfl rfl (by decide)).1

/-- C7: on a successful simulation the response's cost record equals the
CPU-instruction and memory counters of the preflight result, and
`latestLedger` equals the snapshot's latest ledger sequence (the other
response fields are likewise copied from the preflight result). -/
theorem c7_cost_and_latest_ledger (collab : Collaborators) (src : AccountId)
    (body : OperationBody) (fp : LedgerFootprint) (L B : Nat) (pf : Preflight)
    (htx : collab.newCachedTxErr = none)
    (hseq : collab.getLatestLedgerSequence = (L, none))
    (hbls : getBucketListSize collab.getLedger L = some (Except.ok B))
    (hpf : collab.getPreflight B src body fp = (pf, none)) :
    runSimulation collab src body fp =
      some { Error := ""
           , TransactionData := pf.TransactionData
           , Events := pf.Events
           , MinResourceFee := pf.MinFee
           , Results := [{ Auth := pf.Auth, XDR := pf.Result }]
           , Cost := { CPUInstructions := pf.CPUInstructions, MemoryBytes := pf.MemoryBytes }
           , LatestLedger := Int.ofNat L } := by
  simp only [runSimulation, htx, hseq, hbls, hpf]

/-- C7, witness: the theorem applied to the concrete successful
collaborators. -/
theorem c7_cost_and_latest_ledger_witness :
    runSimulation collabOK 7 invokeBody emptyFootprint =
      some { Error := ""
           , TransactionData := pfOK.TransactionData
           , Events := pfOK.Events
           , MinResourceFee := pfOK.MinFee
           , Results := [{ Auth := pfOK.Auth, XDR := pfOK.Result }]
           , Cost := { CPUInstructions := pfOK.CPUInstructions, MemoryBytes := pfOK.MemoryBytes }
           , LatestLedger := Int.ofNat 99 } :=
  c7_cost_and_latest_ledger collabOK 7 invokeBody emptyFootprint 99 4096 pfOK rfl rfl rfl rfl

/-- C9: the handler is deterministic — two requests with byte-identical
transaction strings, simulated with the same decoder and the same
collaborator results, yield identical responses in every field. -/
theorem c9_deterministic (decode : String → Option TransactionEnvelope)
    (collab : Collaborators) (r1 r2 : SimulateTransactionRequest)
    (h : r1.Transaction = r2.Transaction) :
    simulateTransaction decode collab r1 = simulateTransaction decode collab r2 := by
  cases r1
  cases r2
  cases h
  rfl

/-- C9, witness: the theorem applied to two identical concrete requests. -/
theorem c9_deterministic_witness :
    simulateTransaction (fun _ => some envInvoke) collabOK { Transaction := "req" } =
      simulateTransaction (fun _ => some envInvoke) collabOK { Transaction := "req" } :=
  c9_deterministic (fun _ => some envInvoke) collabOK
    { Transaction := "req" } { Transaction := "req" } rfl

/-- C10: every successful response contains exactly one element in its
results array. -/
theorem c10_single_result (collab : Collaborators) (src : AccountId)
    (body : OperationBody) (fp : LedgerFootprint) (L B : Nat) (pf : Preflight)
    (htx : collab.newCachedTxErr = none)
    (hseq : collab.getLatestLedgerSequence = (L, none))
    (hbls : getBucketListSize collab.getLedger L = some (Except.ok B))
    (hpf : collab.getPreflight B src body fp = (pf, none)) :
    ∀ resp, runSimulation collab src body fp = some resp → resp.Results.length = 1 := by
  intro resp h
  simp only [runSimulation, htx, hseq, hbls, hpf] at h
  injection h with h
  subst h
  rfl

/-- C10, witness: the theorem applied to the concrete successful
collaborators. -/
theorem c10_single_result_witness :
    List.length (SimulateTransactionResponse.Results
      { Error := ""
      , TransactionData := pfOK.TransactionData
      , Events := pfOK.Events
      , MinResourceFee := pfOK.MinFee
      , Results := [{ Auth := pfOK.Auth, XDR := pfOK.Result }]
      , Cost := { CPUInstructions := pfOK.CPUInstructions, MemoryBytes := pfOK.MemoryBytes }
      , LatestLedger := Int.ofNat 99 }) = 1 :=
  c10_single_result collabOK 7 invokeBody emptyFootprint 99 4096 pfOK rfl rfl rfl rfl _ rfl

/-- C5: the footprint handed to the VM is determined by the operation
variant.  For `InvokeHostFunction` the handler continues with the empty
footprint, whatever inline resource declaration the envelope carries; for
`BumpFootprintExpiration` / `RestoreFootprint` on an `EnvelopeTypeTx`
envelope with inline Soroban data it continues with exactly the footprint of
that data.  (`runSimulation` passes its footprint argument unchanged to
`getPreflight`.) -/
theorem c5_footprint_resolution (decode : String → Option TransactionEnvelope)
    (collab : Collaborators) (request : SimulateTransactionRequest)
    (env : TransactionEnvelope) (op : Operation) (src : AccountId)
    (hdec : decode request.Transaction = some env)
    (hops : TransactionEnvelope.Operations env = some [op])
    (hsrc : resolvedSource env op = some src) :
    (op.Body.type = OperationType.OperationTypeInvokeHostFunction →
      simulateTransaction decode collab request =
        runSimulation collab src op.Body emptyFootprint) ∧
    ((op.Body.type = OperationType.OperationTypeBumpFootprintExpiration ∨
      op.Body.type = OperationType.OperationTypeRestoreFootprint) →
      env.type = EnvelopeType.EnvelopeTypeTx →
      ∀ v1e sorobanData, env.V1 = some v1e →
        v1e.Tx.Ext.SorobanData = some sorobanData →
        simulateTransaction decode collab request =
          runSimulation collab src op.Body sorobanData.Resources.Footprint) := by
  have hlen : ¬ (([op] : List Operation).length ≠ 1) := by simp
  constructor
  · intro htype
    simp only [simulateTransaction, hdec, hops, if_neg hlen, hsrc, htype]
  · intro htype htxty v1e sorobanData hv1e hsd
    rcases htype with htype | htype <;>
      simp only [simulateTransaction, hdec, hops, if_neg hlen, hsrc, htype,
        bumpRestorePath, if_pos htxty, hv1e, hsd]

/-- C5, witness: the invoke-host-function conjunct applied to the concrete
envelope `envInvoke`. -/
theorem c5_footprint_resolution_witness :
    simulateTransaction (fun _ => some envInvoke) collabOK { Transaction := "req" } =
      runSimulation collabOK 7 invokeBody emptyFootprint :=
  (c5_footprint_resolution (fun _ => some envInvoke) collabOK { Transaction := "req" }
    envInvoke invokeOp 7 rfl rfl rfl).1 rfl

/-- C8: for each of the input-error conditions — undecodable envelope, wrong
operation count, unsupported operation type, and the (dead) missing-resource
-data guard — the handler returns a response consisting of the error message
alone, and the response does not depend on the collaborators: in particular
no read transaction (snapshot) is ever opened. -/
theorem c8_input_errors (decode : String → Option TransactionEnvelope)
    (request : SimulateTransactionRequest) (collab collab2 : Collaborators) :
    (decode request.Transaction = none →
      simulateTransaction decode collab request =
        some (errorResponse ("Could not unmarshal transaction")) ∧
      simulateTransaction decode collab request =
        simulateTransaction decode collab2 request) ∧
    (∀ env ops, decode request.Transaction = some env →
      TransactionEnvelope.Operations env = some ops → ops.length ≠ 1 →
      simulateTransaction decode collab request =
        some (errorResponse ("Transaction contains more than one operation")) ∧
      simulateTransaction decode collab request =
        simulateTransaction decode collab2 request) ∧
    (∀ env op src name, decode request.Transaction = some env →
      TransactionEnvelope.Operations env = some [op] →
      resolvedSource env op = some src →
      op.Body.type = OperationType.OperationTypeOther name →
      simulateTransaction decode collab request =
        some (errorResponse ("Transaction contains unsupported operation type: " ++ name)) ∧
      simulateTransaction decode collab request =
        simulateTransaction decode collab2 request) ∧
    (∀ env op src, decode request.Transaction = some env →
      TransactionEnvelope.Operations env = some [op] →
      resolvedSource env op = some src →
      (op.Body.type = OperationType.OperationTypeBumpFootprintExpiration ∨
       op.Body.type = OperationType.OperationTypeRestoreFootprint) →
      ¬ env.type = EnvelopeType.EnvelopeTypeTx →
      (∃ v1e, env.V1 = some v1e ∧ ¬ v1e.Tx.Ext.V = 1) →
      simulateTransaction decode collab request =
        some (errorResponse ("To perform a SimulateTransaction for BumpFootprintExpiration or RestoreFootprint operations, SorobanTransactionData must be provided")) ∧
      simulateTransaction decode collab request =
        simulateTransaction decode collab2 request) := by
  refine ⟨?_, ?_, ?_, ?_⟩
  · intro hdec
    have key : ∀ c : Collaborators, simulateTransaction decode c request =
        some (errorResponse ("Could not unmarshal transaction")) := by
      intro c
      simp only [simulateTransaction, hdec]
    exact ⟨key collab, (key collab).trans (key collab2).symm⟩
  · intro env ops hdec hops hlen
    have key : ∀ c : Collaborators, simulateTransaction decode c request =
        some (errorResponse ("Transaction contains more than one operation")) := by
      intro c
      simp only [simulateTransaction, hdec, hops]
      rw [if_pos hlen]
    exact ⟨key collab, (key collab).trans (key collab2).symm⟩
  · intro env op src name hdec hops hsrc htype
    have hlen : ¬ (([op] : List Operation).length ≠ 1) := by simp
    have key : ∀ c : Collaborators, simulateTransaction decode c request =
        some (errorResponse ("Transaction contains unsupported operation type: " ++ name)) := by
      intro c
      simp only [simulateTransaction, hdec, hops, if_neg hlen, hsrc, htype, OperationType.str]
    exact ⟨key collab, (key collab).trans (key collab2).symm⟩
  · intro env op src hdec hops hsrc htype htxty hv1
    obtain ⟨v1e, hv1e, hne⟩ := hv1
    have hlen : ¬ (([op] : List Operation).length ≠ 1) := by simp
    have hcond : (if env.type = EnvelopeType.EnvelopeTypeTx then some false
                  else env.V1.map (fun v1e => v1e.Tx.Ext.V != 1)) = some true := by
      rw [if_neg htxty, hv1e]
      simp [bne_iff_ne, hne]
    have key : ∀ c : Collaborators, simulateTransaction decode c request =
        some (errorResponse ("To perform a SimulateTransaction for BumpFootprintExpiration or RestoreFootprint operations, SorobanTransactionData must be provided")) := by
      intro c
      rcases htype with htype | htype <;>
        simp only [simulateTransaction, hdec, hops, if_neg hlen, hsrc, htype,
          bumpRestorePath, hcond]
    exact ⟨key collab, (key collab).trans (key collab2).symm⟩

/-- C8, witness: the undecodable-envelope conjunct applied to a concrete
request, with two different collaborator records. -/
theorem c8_input_errors_witness :
    simulateTransaction (fun _ => none) collabOK { Transaction := "bad" } =
      some (errorResponse ("Could not unmarshal transaction")) ∧
    simulateTransaction (fun _ => none) collabOK { Transaction := "bad" } =
      simulateTransaction (fun _ => none) collabPfErr { Transaction := "bad" } :=
  (c8_input_errors (fun _ => none) { Transaction := "bad" } collabOK collabPfErr).1 rfl

/-- Collaborators whose latest-ledger lookup fails with an error whose
message text is empty (a non-nil Go error with an empty `Error()` string). -/
def collabEmptyErr : Collaborators :=
  { newCachedTxErr := none
  , getLatestLedgerSequence := (0, some "")
  , getLedger := fun _ => (metaOK, true, none)
  , getPreflight := fun _ _ _ _ => (pfOK, none) }

/-- The response of a fully successful simulation against `collabOK` with
the `envInvoke` envelope. -/
def respOK : SimulateTransactionResponse :=
  { Error := ""
  , TransactionData := pfOK.TransactionData
  , Events := pfOK.Events
  , MinResourceFee := pfOK.MinFee
  , Results := [{ Auth := pfOK.Auth, XDR := pfOK.Result }]
  , Cost := { CPUInstructions := pfOK.CPUInstructions, MemoryBytes := pfOK.MemoryBytes }
  , LatestLedger := Int.ofNat 99 }

/-- Appending to a non-empty string yields a non-empty string. -/
theorem string_append_ne_empty (s t : String) (h : s ≠ "") : s ++ t ≠ "" := by
  cases s with
  | mk l =>
    cases t with
    | mk m =>
      intro hc
      apply h
      have hd : l ++ m = [] := congrArg String.data hc
      have hl : l = [] := (List.append_eq_nil.mp hd).1
      rw [hl]

/-- Every error message `getBucketListSize` can return is non-empty,
provided the underlying ledger reader only returns non-empty error
messages. -/
theorem getBucketListSize_error_ne_empty
    (getLedger : Nat → LedgerCloseMeta × Bool × Option String) (L : Nat) (e : String)
    (hled : ∀ e', (getLedger L).2.2 = some e' → e' ≠ "")
    (h : getBucketListSize getLedger L = some (Except.error e)) : e ≠ "" := by
  unfold getBucketListSize at h
  split at h
  · rename_i fst fst2 e' heq
    injection h with h
    injection h with h
    subst h
    exact hled e' (by rw [heq])
  · rename_i fst heq
    injection h with h
    injection h with h
    subst h
    exact string_append_ne_empty _ _ (string_append_ne_empty _ _ (by decide))
  · rename_i meta heq
    split at h
    · injection h with h
      injection h with h
      subst h
      exact string_append_ne_empty _ _ (string_append_ne_empty _ _
        (string_append_ne_empty _ _ (string_append_ne_empty _ _ (by decide))))
    · split at h
      · exact Option.noConfusion h
      · injection h with h
        exact Except.noConfusion h

/-- Every response produced by lines 87-132 either is a success (empty error,
exactly one result) or carries a non-empty error with all result-bearing
fields left at their zero values — provided every collaborator-supplied
error message is non-empty. -/
theorem runSimulation_error_or_results (collab : Collaborators) (src : AccountId)
    (body : OperationBody) (fp : LedgerFootprint) (resp : SimulateTransactionResponse)
    (hseq : ∀ e, collab.getLatestLedgerSequence.2 = some e → e ≠ "")
    (hled : ∀ n e, (collab.getLedger n).2.2 = some e → e ≠ "")
    (hpf : ∀ B s b f e, (collab.getPreflight B s b f).2 = some e → e ≠ "")
    (h : runSimulation collab src body fp = some resp) :
    (resp.Error = "" ∧ resp.Results.length = 1) ∨
    (resp.Error ≠ "" ∧ resp.Results = [] ∧ resp.TransactionData = "" ∧
      resp.MinResourceFee = 0 ∧ resp.Cost = { CPUInstructions := 0, MemoryBytes := 0 }) := by
  unfold runSimulation at h
  split at h
  · injection h with h
    subst h
    right
    exact ⟨by decide, rfl, rfl, rfl, rfl⟩
  · split at h
    · rename_i fst e heq
      injection h with h
      subst h
      right
      exact ⟨hseq e (by rw [heq]), rfl, rfl, rfl, rfl⟩
    · rename_i L heq
      split at h
      · exact Option.noConfusion h
      · rename_i e heq2
        injection h with h
        subst h
        right
        exact ⟨getBucketListSize_error_ne_empty collab.getLedger L e
          (fun e' => hled L e') heq2, rfl, rfl, rfl, rfl⟩
      · rename_i B heq2
        split at h
        · rename_i fst e heq3
          injection h with h
          subst h
          right
          exact ⟨hpf B src body fp e (by rw [heq3]), rfl, rfl, rfl, rfl⟩
        · rename_i result heq3
          injection h with h
          subst h
          left
          exact ⟨rfl, rfl⟩

/-- C4, counterexample: with a collaborator whose latest-ledger lookup fails
with a non-nil error carrying an empty message, the handler produces a
response whose error field is empty while the result-bearing fields are
absent as well — the claim's dichotomy fails on it. -/
theorem c4_counterexample :
    simulateTransaction (fun _ => some envInvoke) collabEmptyErr { Transaction := "req" } =
      some (errorResponse ("")) ∧
    SimulateTransactionResponse.Error (errorResponse ("")) = "" ∧
    SimulateTransactionResponse.Results (errorResponse ("")) = [] := by
  exact ⟨rfl, rfl, rfl⟩

/-- C4, amended: provided every error message the collaborators return is
non-empty, each response carries exactly one of the two shapes — a success
(empty error, exactly one result) or a failure (non-empty error with the
result-bearing fields `results`, `transactionData`, `minResourceFee` and
`cost` at their zero values). -/
theorem c4_error_xor_result (decode : String → Option TransactionEnvelope)
    (collab : Collaborators) (request : SimulateTransactionRequest)
    (resp : SimulateTransactionResponse)
    (hseq : ∀ e, collab.getLatestLedgerSequence.2 = some e → e ≠ "")
    (hled : ∀ n e, (collab.getLedger n).2.2 = some e → e ≠ "")
    (hpf : ∀ B s b f e, (collab.getPreflight B s b f).2 = some e → e ≠ "")
    (h : simulateTransaction decode collab request = some resp) :
    (resp.Error = "" ∧ resp.Results.length = 1) ∨
    (resp.Error ≠ "" ∧ resp.Results = [] ∧ resp.TransactionData = "" ∧
      resp.MinResourceFee = 0 ∧ resp.Cost = { CPUInstructions := 0, MemoryBytes := 0 }) := by
  have hbr : ∀ envl opb srcacc, bumpRestorePath collab envl opb srcacc = some resp →
      (resp.Error = "" ∧ resp.Results.length = 1) ∨
      (resp.Error ≠ "" ∧ resp.Results = [] ∧ resp.TransactionData = "" ∧
        resp.MinResourceFee = 0 ∧ resp.Cost = { CPUInstructions := 0, MemoryBytes := 0 }) := by
    intro envl opb srcacc hb
    unfold bumpRestorePath at hb
    split at hb
    · exact Option.noConfusion hb
    · injection hb with hb
      subst hb
      right
      exact ⟨by decide, rfl, rfl, rfl, rfl⟩
    · split at hb
      · exact Option.noConfusion hb
      · split at hb
        · exact Option.noConfusion hb
        · exact runSimulation_error_or_results collab srcacc opb _ resp hseq hled hpf hb
  unfold simulateTransaction at h
  split at h
  · injection h with h
    subst h
    right
    exact ⟨by decide, rfl, rfl, rfl, rfl⟩
  · split at h
    · exact Option.noConfusion h
    · split at h
      · injection h with h
        subst h
        right
        exact ⟨by decide, rfl, rfl, rfl, rfl⟩
      · split at h
        · exact Option.noConfusion h
        · split at h
          · exact Option.noConfusion h
          · split at h
            · exact runSimulation_error_or_results collab _ _ _ resp hseq hled hpf h
            · exact hbr _ _ _ h
            · exact hbr _ _ _ h
            · injection h with h
              subst h
              right
              exact ⟨string_append_ne_empty _ _ (by decide), rfl, rfl, rfl, rfl⟩

/-- C4, witness: the amended theorem applied to the concrete successful
simulation, yielding the success shape. -/
theorem c4_error_xor_result_witness :
    (SimulateTransactionResponse.Error respOK = "" ∧
      List.length (SimulateTransactionResponse.Results respOK) = 1) ∨
    (SimulateTransactionResponse.Error respOK ≠ "" ∧
      SimulateTransactionResponse.Results respOK = [] ∧
      SimulateTransactionResponse.TransactionData respOK = "" ∧
      SimulateTransactionResponse.MinResourceFee respOK = 0 ∧
      SimulateTransactionResponse.Cost respOK = { CPUInstructions := 0, MemoryBytes := 0 }) :=
  c4_error_xor_result (fun _ => some envInvoke) collabOK { Transaction := "req" } respOK
    (fun _ h => Option.noConfusion h)
    (fun _ _ h => Option.noConfusion h)
    (fun _ _ _ _ _ h => Option.noConfusion h)
    rfl

end SorobanRPC
